import Mathlib

/-
Verification development for the movement-core transaction-simulation
session tooling.

The repository ships the CLI command layer (crates/aptos/src/move_tool/sim.rs)
on top of a session engine (aptos-transaction-simulation-session) whose
implementation is not part of the source tree here; the engine is therefore
modelled from the specification where a claim depends on it, and every CLI
command is translated directly from sim.rs.

Machine integers (u64, bytes) are modelled as Nat; byte strings as List Nat;
fallible Rust code returning Result is modelled with Except.
-/

set_option autoImplicit false

namespace MovementSim

/- ## Data model -/

/-- Modelled from the spec: a StateKey is an account address together with a
typed storage path (resource tag or resource-group tag), immutable once
created.  Addresses are modelled as Nat, tags as String. -/
structure StateKey where
  address : Nat
  tag : String
  deriving DecidableEq, Repr

/-- Modelled from the spec: a StateValue is a raw byte payload. -/
def StateValue := List Nat
deriving DecidableEq, Repr

/-- Modelled from the spec: a DeltaEntry is either a concrete value or an
explicit deletion marker (tombstone) for a StateKey. -/
inductive DeltaEntry where
  | value (v : StateValue)
  | deletion
  deriving DecidableEq, Repr

/-- Modelled from the spec: the Delta is a mapping from StateKey to
DeltaEntry, represented as an association list (first binding wins). -/
def Delta := List (StateKey × DeltaEntry)

/-- Modelled from the spec: a Remote State Source is a version-pinned,
read-only map from state keys to optional values (absence is logical
not-found at the frozen baseline version). -/
def RemoteSource := StateKey → Option StateValue

/- ## Delta Store operations (spec 4.2) -/

/-- Modelled from the spec: Delta Store `get(key) -> Option DeltaEntry`. -/
def deltaGet : Delta → StateKey → Option DeltaEntry
  | [], _ => none
  | (k, e) :: rest, key => if k = key then some e else deltaGet rest key

/-- Modelled from the spec: Delta Store `put(key, value)` records a concrete
value for the key, replacing any previous binding. -/
def deltaPut (d : Delta) (key : StateKey) (v : StateValue) : Delta :=
  (key, DeltaEntry.value v) :: d.filter (fun p => p.1 ≠ key)

/-- Modelled from the spec: Delta Store `delete(key)` records a tombstone for
the key, replacing any previous binding. -/
def deltaDelete (d : Delta) (key : StateKey) : Delta :=
  (key, DeltaEntry.deletion) :: d.filter (fun p => p.1 ≠ key)

/- ## Combined State View (spec 4.3) -/

/-- Modelled from the spec: Combined State View `get(key)` returns the
Delta entry if present (a tombstone resolves to absent, never falling
through to remote); otherwise it queries the Remote State Source at the
frozen baseline. -/
def combinedGet (d : Delta) (remote : RemoteSource) (key : StateKey) :
    Option StateValue :=
  match deltaGet d key with
  | some (DeltaEntry.value v) => some v
  | some DeltaEntry.deletion => none
  | none => remote key

/- ## CLI error type (crates/aptos common::types::CliError, shape only) -/

/-- The CLI error constructors reachable from sim.rs: `UnexpectedError` and
`IO` carry message strings that are irrelevant to control flow, so they are
modelled as bare constructors. -/
inductive CliErr where
  | unexpectedError
  | ioError
  deriving DecidableEq, Repr

/-- Modelled from the spec: the error taxonomy of the session engine that is
visible to the claims (FetchError, DecodeError, CorruptState). -/
inductive SimError where
  | fetchError
  | decodeError
  | corruptState
  deriving DecidableEq, Repr

/- ## String helpers mirroring the Rust std string operations used in sim.rs.
Strings are processed as lists of characters so that every function is
structurally recursive and kernel-evaluable. -/

/-- ASCII whitespace test backing the model of Rust `str::trim`. -/
def isWS (c : Char) : Bool :=
  c = ' ' || c = '\t' || c = '\n' || c = '\r'

/-- Model of Rust `str::trim`: drop whitespace from both ends. -/
def trimChars (s : List Char) : List Char :=
  ((s.dropWhile isWS).reverse.dropWhile isWS).reverse

/-- Model of Rust `str::starts_with` on character lists. -/
def startsWithChars : List Char → List Char → Bool
  | [], _ => true
  | _ :: _, [] => false
  | p :: ps, c :: cs => p = c && startsWithChars ps cs

/-- Model of Rust `str::split(sep)`: split into the (non-empty) list of
fields between occurrences of the separator character. -/
def splitOnChar (sep : Char) : List Char → List (List Char)
  | [] => [[]]
  | c :: rest =>
    let r := splitOnChar sep rest
    if c = sep then [] :: r
    else
      match r with
      | [] => [[c]]
      | h :: t => (c :: h) :: t

/-- Model of Rust `[&str]::join(sep)` for a single-character separator. -/
def joinWithChar (sep : Char) : List (List Char) → List Char
  | [] => []
  | [s] => s
  | s :: rest => s ++ sep :: joinWithChar sep rest

/-- One step of Rust `str::trim_start_matches`: fuel-bounded repeated removal
of a leading pattern occurrence. -/
def trimStartAux (pat : List Char) : Nat → List Char → List Char
  | 0, s => s
  | fuel + 1, s =>
    if pat ≠ [] ∧ startsWithChars pat s then
      trimStartAux pat fuel (s.drop pat.length)
    else s

/-- Model of Rust `str::trim_start_matches(pat)`: repeatedly removes the
pattern from the front while it is a prefix. -/
def trimStartMatches (pat s : List Char) : List Char :=
  trimStartAux pat s.length s

/-- Model of Rust `str::trim_matches(ch)` for a character pattern: removes
the character repeatedly from both ends. -/
def trimMatchesChar (ch : Char) (s : List Char) : List Char :=
  ((s.dropWhile (· = ch)).reverse.dropWhile (· = ch)).reverse

/-- Value of a single hexadecimal digit, as used by the `hex` crate. -/
def hexDigit (c : Char) : Option Nat :=
  if '0' ≤ c ∧ c ≤ '9' then some (c.toNat - '0'.toNat)
  else if 'a' ≤ c ∧ c ≤ 'f' then some (c.toNat - 'a'.toNat + 10)
  else if 'A' ≤ c ∧ c ≤ 'F' then some (c.toNat - 'A'.toNat + 10)
  else none

/-- Model of `hex::decode` on a character list: pairs of hex digits become
bytes; odd length or a non-hex character fails. -/
def hexPairs : List Char → Option (List Nat)
  | [] => some []
  | [_] => none
  | c1 :: c2 :: rest => do
    let hi ← hexDigit c1
    let lo ← hexDigit c2
    let tail ← hexPairs rest
    pure ((hi * 16 + lo) :: tail)

/- ## Profile-document field extraction (sim.rs lines 139-149 and 284-306).

sim.rs scans config.yaml line by line: it takes the first line whose
trimmed form starts with `<field>:`, splits the raw line on `:`, and when
there are at least two parts rejoins everything after the first with `:`,
trims it and strips surrounding double quotes. -/

def fieldSep : Char := ':'

def quoteChar : Char := '"'

/-- Direct translation of the closure at sim.rs:142-149 (and 287-294,
299-306): post-process one matching config line into the field value. -/
def fieldValueOfLine (line : List Char) : Option (List Char) :=
  let parts := splitOnChar fieldSep line
  if parts.length ≥ 2 then
    some (trimMatchesChar quoteChar (trimChars (joinWithChar fieldSep (parts.drop 1))))
  else none

/-- Direct translation of the line scan in sim.rs (`lines().find(...)` with
`line.trim().starts_with(field ++ ":")` followed by the split/join/trim
post-processing). -/
def extractField (lines : List (List Char)) (field : List Char) : Option (List Char) :=
  (lines.find? (fun line => startsWithChars (field ++ [fieldSep]) (trimChars line))).bind
    fieldValueOfLine

/- ## Session reads used by the Run command (spec 4.4, 4.6) -/

/-- Resource tag of the account resource holding the sequence number. -/
def aptosAccountTag : String := "0x1::account::Account"

/-- State key of the account resource of an address. -/
def accountResourceKey (addr : Nat) : StateKey :=
  { address := addr, tag := aptosAccountTag }

/-- Little-endian value of a byte list. -/
def leValue : List Nat → Nat
  | [] => 0
  | b :: rest => b + 256 * leValue rest

/-- Modelled from the spec: Resource Codec decode of the account resource
into its sequence number; bytes that do not match the expected shape fail
with DecodeError.  The shape is modelled as a leading little-endian u64. -/
def decodeAccountSequenceNumber (bytes : List Nat) : Except SimError Nat :=
  if bytes.length ≥ 8 ∧ bytes.all (· < 256) then
    Except.ok (leValue (bytes.take 8))
  else Except.error SimError.decodeError

/-- Modelled from the spec: `get_sequence_number(address)` reads the account
resource through the Combined State View; an absent account yields the
defined default zero, and present-but-undecodable bytes are an error. -/
def get_sequence_number (d : Delta) (remote : RemoteSource) (addr : Nat) :
    Except SimError Nat :=
  match combinedGet d remote (accountResourceKey addr) with
  | none => Except.ok 0
  | some bytes => decodeAccountSequenceNumber bytes

/-- A remote source holding nothing, for concrete evaluations. -/
def emptyRemote : RemoteSource := fun _ => none

/- ## The Run command (sim.rs 267-402), stage by stage -/

/-- Translation of sim.rs:354: the Run command turns the result of the
session sequence-number read into the transaction sequence number with
`.unwrap_or(0)`, so every error collapses to the default zero. -/
def runSequenceNumber (r : Except SimError Nat) : Nat :=
  match r with
  | Except.ok n => n
  | Except.error _ => 0

/-- Raw transaction as built by sim.rs; the entry-function payload is opaque
to every claim and is modelled as an identifier. -/
structure RawTxn where
  sender : Nat
  sequenceNumber : Nat
  payload : Nat
  maxGasAmount : Nat
  gasUnitPrice : Nat
  expirationTimestampSecs : Nat
  chainId : Nat
  deriving DecidableEq, Repr

/-- Translation of sim.rs:357-365: `RawTransaction::new` is called with the
hard-coded chain id `ChainId::new(126)` and expiration
`chrono::Utc::now().timestamp() as u64 + 600`; no session or user input
reaches those two fields. -/
def runRawTxn (sender seq payload maxGas gasUnitPrice now : Nat) : RawTxn :=
  { sender := sender
  , sequenceNumber := seq
  , payload := payload
  , maxGasAmount := maxGas
  , gasUnitPrice := gasUnitPrice
  , expirationTimestampSecs := now + 600
  , chainId := 126 }

/-- Signed transaction as submitted to the executor; the public key attached
by sim.rs:370 is derived by the external crypto library and is a parameter
here. -/
structure SignedTxn where
  raw : RawTxn
  publicKey : List Nat
  signature : List Nat
  deriving DecidableEq, Repr

/-- Translation of sim.rs:368-373: the signed transaction always carries
`Ed25519Signature::try_from(&[0u8; 64])`, the all-zero placeholder. -/
def runSignedTxn (raw : RawTxn) (publicKey : List Nat) : SignedTxn :=
  { raw := raw
  , publicKey := publicKey
  , signature := List.replicate 64 0 }

/-- Transaction status as returned by the virtual machine
(`TransactionStatus`): kept (with the execution status success bit),
discarded with a reason, or retry. -/
inductive TransactionStatus where
  | keep (isSuccess : Bool)
  | discard (reason : Nat)
  | retry
  deriving DecidableEq, Repr

/-- Translation of sim.rs:381-387: the `success` field of the summary. -/
def statusSuccess : TransactionStatus → Option Bool
  | TransactionStatus.keep b => some b
  | TransactionStatus.discard _ => none
  | TransactionStatus.retry => none

/-- The CLI TransactionSummary fields populated by sim.rs:389-400. -/
structure TransactionSummary where
  transactionHash : List Nat
  gasUsed : Option Nat
  gasUnitPrice : Option Nat
  pending : Option Bool
  sender : Option Nat
  sequenceNumber : Option Nat
  success : Option Bool
  timestampUs : Option Nat
  version : Option Nat
  vmStatus : Option String
  deriving DecidableEq, Repr

set_option linter.unusedVariables false in
/-- Translation of sim.rs:389-400: the summary returned after a successful
`execute_transaction` call.  `txnSeq` is the sequence number that was placed
in the transaction; the source ignores it and writes `Some(0)`, and writes
`HashValue::zero()` as the hash. -/
def runSummary (gasUsed gasUnitPrice sender txnSeq : Nat) (vmStatus : String)
    (status : TransactionStatus) : TransactionSummary :=
  { transactionHash := List.replicate 32 0
  , gasUsed := some gasUsed
  , gasUnitPrice := some gasUnitPrice
  , pending := none
  , sender := some sender
  , sequenceNumber := some 0
  , success := statusSuccess status
  , timestampUs := none
  , version := none
  , vmStatus := some vmStatus }

/- ## Profile key selection in the Run command (sim.rs 277-345) -/

/-- Prefix stripped from private keys (sim.rs:311). -/
def ed25519PrivTag : List Char := "ed25519-priv-".toList

/-- Prefix stripped from public keys (sim.rs:124, 152). -/
def ed25519PubTag : List Char := "ed25519-pub-".toList

/-- Hex-literal marker stripped before decoding (sim.rs:125, 153, 312, 324). -/
def hexTag : List Char := "0x".toList

/-- Field label scanned for in the profile document by Run (sim.rs:286). -/
def privateKeyField : List Char := "private_key".toList

/-- Field label scanned for in the profile document by Run (sim.rs:298). -/
def accountField : List Char := "account".toList

/-- Field label scanned for in the profile document by Fund (sim.rs:141). -/
def publicKeyField : List Char := "public_key".toList

/-- Accumulating hexadecimal value of a digit string; fails on a non-hex
character. -/
def hexNatAux (acc : Nat) : List Char → Option Nat
  | [] => some acc
  | c :: cs =>
    match hexDigit c with
    | none => none
    | some d => hexNatAux (acc * 16 + d) cs

/-- Model of sim.rs:322-328: `AccountAddress::from_hex_literal` applied to
`"0x" ++ acc_str.trim_start_matches("0x")`; the address parser accepts one
to 64 hex digits after the marker. -/
def accountFromProfileStr (accStr : List Char) : Option Nat :=
  let digits := trimStartMatches hexTag accStr
  if 1 ≤ digits.length ∧ digits.length ≤ 64 then hexNatAux 0 digits
  else none

/-- Which private key the Run command ends up signing with. -/
inductive KeySource where
  | profileKey (bytes : List Nat)
  | randomKey
  deriving DecidableEq, Repr

/-- Translation of sim.rs:283-336, the branch taken when the profile
document exists: extract `private_key` and `account` by line scanning; when
both are present, decode them (hex or length failures are hard CLI errors);
when either is missing, fall back to a freshly generated random key and the
given sender, with no error. -/
def runProfileBranch (lines : List (List Char)) (senderArg : Option Nat)
    (randAddr : Nat) : Except CliErr (KeySource × Nat) :=
  match extractField lines privateKeyField, extractField lines accountField with
  | some pkStr, some accStr =>
    match hexPairs (trimStartMatches hexTag (trimStartMatches ed25519PrivTag pkStr)) with
    | none => Except.error CliErr.unexpectedError
    | some bytes =>
      if bytes.length = 32 then
        match accountFromProfileStr accStr with
        | none => Except.error CliErr.unexpectedError
        | some addr => Except.ok (KeySource.profileKey bytes, addr)
      else Except.error CliErr.unexpectedError
  | _, _ => Except.ok (KeySource.randomKey, senderArg.getD randAddr)

/-- Translation of sim.rs:277-345: select the signing key and sender for
Run.  `configLines` is `none` when `.movement/config.yaml` is absent;
`randAddr` models `AccountAddress::random()`.  Line 345 then overrides the
sender with `--sender-account` when that argument was given. -/
def runKeySelection (configLines : Option (List (List Char)))
    (senderArg : Option Nat) (randAddr : Nat) :
    Except CliErr (KeySource × Nat) :=
  let pre :=
    match configLines with
    | some lines => runProfileBranch lines senderArg randAddr
    | none => Except.ok (KeySource.randomKey, senderArg.getD randAddr)
  pre.map (fun p => (p.1, senderArg.getD p.2))

/-- A profile document that exists but has no `private_key` line. -/
def corruptConfigLines : List (List Char) := ["account: 0x1".toList]

/- ## The Init command (sim.rs 62-89) -/

/-- The network selection argument of Init (`ReplayNetworkSelection`). -/
inductive ReplayNetworkSelection where
  | mainnet
  | testnet
  | devnet
  | restEndpoint (url : List Char)
  deriving DecidableEq, Repr

def mainnetUrl : List Char := "https://mainnet.aptoslabs.com".toList

def testnetUrl : List Char := "https://testnet.aptoslabs.com".toList

def devnetUrl : List Char := "https://devnet.aptoslabs.com".toList

/-- Scheme separator required of an absolute URL. -/
def schemeSep : List Char := "://".toList

/-- Shallow model of `Url::parse` success on a user-supplied endpoint: the
string contains a scheme separator. -/
def hasUrlScheme : List Char → Bool
  | [] => false
  | c :: rest => startsWithChars schemeSep (c :: rest) || hasUrlScheme rest

/-- Translation of sim.rs:23-34: map the network selection to a URL; the
three fixed fullnode URLs always parse, a user endpoint fails with a CLI
error when it is not a valid URL. -/
def network_to_url : ReplayNetworkSelection → Except CliErr (List Char)
  | ReplayNetworkSelection.mainnet => Except.ok mainnetUrl
  | ReplayNetworkSelection.testnet => Except.ok testnetUrl
  | ReplayNetworkSelection.devnet => Except.ok devnetUrl
  | ReplayNetworkSelection.restEndpoint s =>
    if hasUrlScheme s then Except.ok s else Except.error CliErr.unexpectedError

/-- The single session constructor invoked by one Init run. -/
inductive InitAction where
  | initWithRemoteState (url : List Char) (version : Nat) (apiKey : Option (List Char))
  | initLocal
  deriving DecidableEq, Repr

/-- Translation of sim.rs:68-88 (`Init::execute`): with `--network`, resolve
the URL, take the user baseline version or otherwise the remote ledger
version (`ledgerVersion` models the `get_ledger_information` call, which can
itself fail), and call `Session::init_with_remote_state`; without
`--network`, call `Session::init`. -/
def initExecute (network : Option ReplayNetworkSelection)
    (networkVersion : Option Nat) (apiKey : Option (List Char))
    (ledgerVersion : Except CliErr Nat) : Except CliErr InitAction :=
  match network with
  | some net =>
    match network_to_url net with
    | Except.error e => Except.error e
    | Except.ok url =>
      match networkVersion with
      | some v => Except.ok (InitAction.initWithRemoteState url v apiKey)
      | none =>
        match ledgerVersion with
        | Except.error e => Except.error e
        | Except.ok v => Except.ok (InitAction.initWithRemoteState url v apiKey)
  | none => Except.ok InitAction.initLocal

/- ## The Fund command (sim.rs 111-177) -/

/-- Translation of sim.rs:133-161: public key read from the session profile
document; every failure along the chain (missing file, missing line, bad
hex, bad key) collapses to `none` via `.ok()`/`and_then`. -/
def fundProfilePublicKey (configLines : Option (List (List Char))) :
    Option (List Nat) :=
  match configLines with
  | none => none
  | some lines =>
    match extractField lines publicKeyField with
    | none => none
    | some pkStr =>
      match hexPairs (trimStartMatches hexTag (trimStartMatches ed25519PubTag pkStr)) with
      | none => none
      | some bytes => if bytes.length = 32 then some bytes else none

/-- Translation of sim.rs:121-162: the public key available to Fund — the
`--public-key` argument when given (its decode failures are hard CLI
errors), otherwise the best-effort profile read. -/
def fundPublicKey (publicKeyArg : Option (List Char))
    (configLines : Option (List (List Char))) :
    Except CliErr (Option (List Nat)) :=
  match publicKeyArg with
  | some pkStr =>
    match hexPairs (trimStartMatches hexTag (trimStartMatches ed25519PubTag pkStr)) with
    | none => Except.error CliErr.unexpectedError
    | some bytes =>
      if bytes.length = 32 then Except.ok (some bytes)
      else Except.error CliErr.unexpectedError
  | none => Except.ok (fundProfilePublicKey configLines)

/-- The session funding operation invoked by one Fund run. -/
inductive FundAction where
  | create_and_fund_account (address : Nat) (publicKey : List Nat) (amount : Nat)
  | fund_account (address : Nat) (amount : Nat)
  deriving DecidableEq, Repr

/-- Translation of sim.rs:117-176 (`Fund::execute`): resolve the public key,
then call `create_and_fund_account` when one is available and `fund_account`
otherwise. -/
def fundExecute (account amount : Nat) (publicKeyArg : Option (List Char))
    (configLines : Option (List (List Char))) : Except CliErr FundAction :=
  match fundPublicKey publicKeyArg configLines with
  | Except.error e => Except.error e
  | Except.ok (some pk) => Except.ok (FundAction.create_and_fund_account account pk amount)
  | Except.ok none => Except.ok (FundAction.fund_account account amount)

/-- A well-formed `--public-key` argument: `0x` followed by 64 hex digits. -/
def samplePubKeyArg : List Char := '0' :: 'x' :: List.replicate 64 '0'

/- ## Resource-group viewing (sim.rs 228-242, spec 4.4) -/

/-- Modelled from the spec: `derive_object_address(owner, seed)` is a
deterministic pure function from an owner address and a seed to a dependent
object address; the concrete hash lives in the external crypto layer and an
injective pairing stands in for it. -/
def derive_object_address (owner seed : Nat) : Nat :=
  (owner + seed) * (owner + seed + 1) / 2 + seed + 1

/-- State key of a resource-group blob under an address. -/
def resourceGroupKey (address : Nat) (groupTag : String) : StateKey :=
  { address := address, tag := groupTag }

/-- Modelled from the spec: `view_resource_group(address, group_tag,
derived_address?)` resolves the optional derived address before the
Combined State View query, then reads the group blob at the frozen
baseline overlaid with the Delta.  The codec demultiplexing applied to the
blob afterwards is independent of the address resolution and is left as the
raw blob here. -/
def view_resource_group (d : Delta) (remote : RemoteSource) (address : Nat)
    (groupTag : String) (derivedSeed : Option Nat) : Option StateValue :=
  let target :=
    match derivedSeed with
    | some seed => derive_object_address address seed
    | none => address
  combinedGet d remote (resourceGroupKey target groupTag)

/-- The empty Delta, for concrete evaluations. -/
def emptyDelta : Delta := []

/- ## Theorems -/

theorem deltaGet_deltaPut_self (d : Delta) (key : StateKey) (v : StateValue) :
    deltaGet (deltaPut d key v) key = some (DeltaEntry.value v) := by
  simp [deltaGet, deltaPut]

theorem deltaGet_deltaDelete_self (d : Delta) (key : StateKey) :
    deltaGet (deltaDelete d key) key = some DeltaEntry.deletion := by
  simp [deltaGet, deltaDelete]

/-- Claim C1: a Delta entry (value or tombstone) takes precedence over the
Remote State Source on a combined-view read: after `put(k, v)`, `get(k)`
returns `v` whatever the remote holds for `k`, and after `delete(k)`,
`get(k)` is absent even when `k` is present remotely. -/
theorem delta_precedence_over_remote (d : Delta) (remote : RemoteSource)
    (k : StateKey) (v : StateValue) :
    combinedGet (deltaPut d k v) remote k = some v ∧
    combinedGet (deltaDelete d k) remote k = none := by
  constructor
  · simp [combinedGet, deltaGet_deltaPut_self]
  · simp [combinedGet, deltaGet_deltaDelete_self]

/-- Claim C2 (code bug): the signed transaction that the Run command submits
to the executor always carries the all-zero 64-byte placeholder signature;
no simulate flag exists and no input reaches the signature field, so the
default behavior is the placeholder, not a real signature from the sender's
private key. -/
theorem run_signed_txn_placeholder_signature (raw : RawTxn) (publicKey : List Nat) :
    (runSignedTxn raw publicKey).signature = List.replicate 64 0 := rfl

/-- Claim C3 (code bug): the Run command maps every failing sequence-number
read to the default value zero via `.unwrap_or(0)` instead of returning the
error to the caller. -/
theorem run_swallows_sequence_number_errors (e : SimError) :
    runSequenceNumber (Except.error e) = 0 := rfl

/-- Claim C4 (code bug): with a profile document that exists but lacks a
`private_key` line, the Run command silently falls back to a freshly
generated random key (modelled by the `randomKey` outcome) and the random
sender address instead of failing with CorruptState. -/
theorem profile_without_private_key_falls_back_to_random :
    runKeySelection (some corruptConfigLines) none 7 =
      Except.ok (KeySource.randomKey, 7) := rfl

/-- Claim C5: for an address whose account resource is absent in the
combined view, `get_sequence_number` yields the defined default zero, and
the Run command places exactly that value in the raw transaction it
builds. -/
theorem absent_account_sequence_number_zero (d : Delta) (remote : RemoteSource)
    (addr : Nat)
    (h : combinedGet d remote (accountResourceKey addr) = none) :
    get_sequence_number d remote addr = Except.ok 0 ∧
    ∀ payload maxGas gasPrice now,
      (runRawTxn addr (runSequenceNumber (get_sequence_number d remote addr))
        payload maxGas gasPrice now).sequenceNumber = 0 := by
  have hseq : get_sequence_number d remote addr = Except.ok 0 := by
    unfold get_sequence_number
    rw [h]
  refine ⟨hseq, ?_⟩
  intro payload maxGas gasPrice now
  simp [runRawTxn, hseq, runSequenceNumber]

/-- Witness for claim C5 at the empty session state and address 1. -/
theorem absent_account_sequence_number_zero_witness :
    get_sequence_number emptyDelta emptyRemote 1 = Except.ok 0 ∧
    (runRawTxn 1 (runSequenceNumber (get_sequence_number emptyDelta emptyRemote 1))
      0 100000 100 0).sequenceNumber = 0 := by
  have h := absent_account_sequence_number_zero emptyDelta emptyRemote 1 rfl
  exact ⟨h.1, h.2 0 100000 100 0⟩

/-- Claim C6: one Init invocation runs exactly one session constructor:
without `--network` it is `Session::init`; with `--network` it is
`Session::init_with_remote_state` on that network's URL, with the
user-supplied baseline version or, when none is given, the remote's current
ledger version. -/
theorem init_dispatch :
    (∀ (nv : Option Nat) (ak : Option (List Char)) (lv : Except CliErr Nat),
      initExecute none nv ak lv = Except.ok InitAction.initLocal) ∧
    (∀ (net : ReplayNetworkSelection) (url : List Char) (v : Nat)
        (ak : Option (List Char)) (lv : Except CliErr Nat),
      network_to_url net = Except.ok url →
      initExecute (some net) (some v) ak lv =
        Except.ok (InitAction.initWithRemoteState url v ak)) ∧
    (∀ (net : ReplayNetworkSelection) (url : List Char) (v : Nat)
        (ak : Option (List Char)),
      network_to_url net = Except.ok url →
      initExecute (some net) none ak (Except.ok v) =
        Except.ok (InitAction.initWithRemoteState url v ak)) := by
  refine ⟨fun nv ak lv => rfl, ?_, ?_⟩
  · intro net url v ak lv h
    simp [initExecute, h]
  · intro net url v ak h
    simp [initExecute, h]

/-- Witness for claim C6: Init on mainnet with baseline version 5. -/
theorem init_dispatch_witness :
    initExecute (some ReplayNetworkSelection.mainnet) (some 5) none (Except.ok 0) =
      Except.ok (InitAction.initWithRemoteState mainnetUrl 5 none) :=
  init_dispatch.2.1 ReplayNetworkSelection.mainnet mainnetUrl 5 none
    (Except.ok 0) rfl

/-- Claim C7: one Fund invocation calls `create_and_fund_account` exactly
when a public key is available (from the `--public-key` argument or the
session profile document) and `fund_account` otherwise. -/
theorem fund_dispatch :
    (∀ (account amount : Nat) (arg : Option (List Char))
        (cfg : Option (List (List Char))) (pk : List Nat),
      fundPublicKey arg cfg = Except.ok (some pk) →
      fundExecute account amount arg cfg =
        Except.ok (FundAction.create_and_fund_account account pk amount)) ∧
    (∀ (account amount : Nat) (arg : Option (List Char))
        (cfg : Option (List (List Char))),
      fundPublicKey arg cfg = Except.ok none →
      fundExecute account amount arg cfg =
        Except.ok (FundAction.fund_account account amount)) := by
  constructor
  · intro account amount arg cfg pk h
    simp [fundExecute, h]
  · intro account amount arg cfg h
    simp [fundExecute, h]

/-- Witness for claim C7: a valid `--public-key` argument leads to
`create_and_fund_account` with the decoded key. -/
theorem fund_dispatch_witness :
    fundExecute 1 500000 (some samplePubKeyArg) none =
      Except.ok (FundAction.create_and_fund_account 1 (List.replicate 32 0) 500000) :=
  fund_dispatch.1 1 500000 (some samplePubKeyArg) none (List.replicate 32 0) rfl

/-- Claim C8: viewing a resource group through a derived address argument
equals viewing it directly at the pre-computed derived object address. -/
theorem view_resource_group_derived_equiv (d : Delta) (remote : RemoteSource)
    (addr : Nat) (groupTag : String) (seed : Nat) :
    view_resource_group d remote addr groupTag (some seed) =
      view_resource_group d remote (derive_object_address addr seed) groupTag none := rfl

/-- Claim C9: the raw transaction built by the Run command always has chain
id 126 and expiration equal to the current wall-clock time plus 600
seconds; the constructor takes no session chain identifier or user input
for either field. -/
theorem run_raw_txn_fixed_chain_id_and_expiration
    (sender seq payload maxGas gasUnitPrice now : Nat) :
    (runRawTxn sender seq payload maxGas gasUnitPrice now).chainId = 126 ∧
    (runRawTxn sender seq payload maxGas gasUnitPrice now).expirationTimestampSecs
      = now + 600 :=
  ⟨rfl, rfl⟩

/-- Claim C10: the summary returned by a successful Run has the all-zero
transaction hash, sequence number `some 0` whatever sequence number was
placed in the transaction, the VM's full status string, and a `some`
success value exactly when the VM kept the transaction. -/
theorem run_summary_shape (gasUsed gasUnitPrice sender txnSeq : Nat)
    (vmStatus : String) (status : TransactionStatus) :
    (runSummary gasUsed gasUnitPrice sender txnSeq vmStatus status).transactionHash
      = List.replicate 32 0 ∧
    (runSummary gasUsed gasUnitPrice sender txnSeq vmStatus status).sequenceNumber
      = some 0 ∧
    (runSummary gasUsed gasUnitPrice sender txnSeq vmStatus status).vmStatus
      = some vmStatus ∧
    ((runSummary gasUsed gasUnitPrice sender txnSeq vmStatus status).success.isSome
      ↔ ∃ b, status = TransactionStatus.keep b) := by
  refine ⟨rfl, rfl, rfl, ?_⟩
  cases status <;> simp [runSummary, statusSuccess]

end MovementSim
